import Mathlib

/-!
Verification of the scoring pipeline of the AI Singularity Tracker
(`src/dashboard/app.py`): quarterly alignment, year-over-year change
calculation, z-score normalization and weighted aggregation into a
composite 0-100 score. Python floats are modelled as exact rationals;
pandas DataFrames are modelled as a list of (year, month, value) rows
together with the list of extra columns attached to the frame, so that
in-place column assignment is visible as an effect on the input.
-/

namespace AITracker

/-- One observation row: the `date` column (built from `year`/`month` with
day fixed to 1 by `load_data`) and the metric value of that row. -/
structure Obs where
  year : ℕ
  month : ℕ
  value : ℚ
deriving DecidableEq, Repr

/-- Chronological key of an observation's date. -/
def dateKey (o : Obs) : ℕ := o.year * 12 + o.month

/-- The order used by `sort_values('date')`. -/
def dateLE (a b : Obs) : Prop := dateKey a ≤ dateKey b

instance : DecidableRel dateLE := fun _ _ => Nat.decLe _ _

instance : IsTotal Obs dateLE := ⟨fun _ _ => Nat.le_total _ _⟩

instance : IsTrans Obs dateLE := ⟨fun _ _ _ => Nat.le_trans⟩

/-- The filter `df['date'].dt.month.isin([3, 6, 9, 12])`. -/
def isQuarterEnd (o : Obs) : Bool :=
  o.month == 3 || o.month == 6 || o.month == 9 || o.month == 12

/-- A pandas DataFrame, reduced to what the pipeline touches: the rows in
order, and the names of the derived columns attached to the frame. -/
structure DataFrame where
  rows : List Obs
  extraCols : List String
deriving DecidableEq, Repr

/-- Column assignment `df[c] = ...`: adds column `c` if absent,
overwrites it (here: with the same derived values) if present. -/
def addCol (cols : List String) (c : String) : List String :=
  if c ∈ cols then cols else cols ++ [c]

/-- Effect of `align_to_quarterly` on its argument: the two in-place
assignments `df['quarter'] = ...` and `df['year'] = ...`. -/
def alignMutatedInput (df : DataFrame) : DataFrame :=
  { df with extraCols := addCol (addCol df.extraCols "quarter") "year" }

/-- The series-level part of `align_to_quarterly`: keep rows whose month is
in {3, 6, 9, 12}, then `sort_values('date')` (a stable sort). -/
def alignSeries (rows : List Obs) : List Obs :=
  List.insertionSort dateLE (rows.filter isQuarterEnd)

/-- Model of `align_to_quarterly(df, metric_col)`: returns the state of the caller's
DataFrame after the call together with the returned quarterly frame. -/
def align_to_quarterly (df : DataFrame) : DataFrame × DataFrame :=
  (alignMutatedInput df,
   { rows := alignSeries df.rows, extraCols := (alignMutatedInput df).extraCols })

/-- Access `iloc[i]` on the value column, with junk default for out of range. -/
def ilocVal (vals : List ℚ) (i : ℕ) : ℚ := vals.getD i 0

/-- The percentage change of one window: body of the loop in
`calculate_yoy_changes`. `iloc[-1]` is index `length - 1` and
`iloc[-(p+1)]` is index `length - 1 - p`; the division is unguarded. -/
def yoyChange (vals : List ℚ) (p : ℕ) : Option ℚ :=
  if p < vals.length then
    some ((ilocVal vals (vals.length - 1) - ilocVal vals (vals.length - 1 - p)) /
      ilocVal vals (vals.length - 1 - p) * 100)
  else none

/-- The `changes` dict built by `calculate_yoy_changes`: a key is present
only when the corresponding window was computed. -/
structure Changes where
  one_year : Option ℚ
  two_year : Option ℚ
  three_year : Option ℚ
deriving DecidableEq, Repr

/-- Model of `calculate_yoy_changes(df, metric_col)`: sorts a copy of the frame by
date and computes the 4-, 8- and 12-period changes. The first component is
the state of the caller's DataFrame after the call (`sort_values` without
`inplace` does not modify it). -/
def calculate_yoy_changes (df : DataFrame) : DataFrame × Changes :=
  let vals := (List.insertionSort dateLE df.rows).map Obs.value
  (df,
   { one_year := yoyChange vals 4,
     two_year := yoyChange vals 8,
     three_year := yoyChange vals 12 })

/-- The three lookback windows. -/
inductive Period where
  | p1
  | p2
  | p3
deriving DecidableEq, Repr

/-- Lookup `changes[period]`, with `none` when `period` is not a key. -/
def Changes.get : Changes → Period → Option ℚ
  | c, .p1 => c.one_year
  | c, .p2 => c.two_year
  | c, .p3 => c.three_year

/-- Truthiness of `unemployment_changes` in Python: `None` and the empty
dict are falsy, a dict with at least one key is truthy. -/
def dictTruthy (u : Option Changes) : Bool :=
  match u with
  | none => false
  | some c => c.one_year.isSome || c.two_year.isSome || c.three_year.isSome

/-- The clipping `np.clip(z, -3, 3)`. -/
def clip3 (z : ℚ) : ℚ := max (-3) (min 3 z)

/-- Constant `std_devs['labor_share'] = 2.5`. -/
def std_dev_labor : ℚ := 5 / 2

/-- Constant `std_devs['gdp_per_capita'] = 3.0`. -/
def std_dev_gdp : ℚ := 3

/-- Constant `std_devs['accountants'] = 5.0`. -/
def std_dev_accountants : ℚ := 5

/-- Constant `std_devs['unemployment'] = 15.0`. -/
def std_dev_unemployment : ℚ := 15

/-- Score `labor_z`: negative change is a positive signal, then clipped. -/
def laborZ (c : ℚ) : ℚ := clip3 ((-c) / std_dev_labor)

/-- Score `gdp_z`: positive change is a positive signal, then clipped. -/
def gdpZ (c : ℚ) : ℚ := clip3 (c / std_dev_gdp)

/-- Score `accountants_z`: negative change is a positive signal, then clipped. -/
def accountantsZ (c : ℚ) : ℚ := clip3 ((-c) / std_dev_accountants)

/-- Score `unemployment_z`: `uc / 15` only when `unemployment_changes` is truthy
and the period is a key of it, else `0`; then clipped. -/
def unemploymentZ (uc : Option ℚ) (truthy : Bool) : ℚ :=
  clip3 (match truthy, uc with
    | true, some u => u / std_dev_unemployment
    | _, _ => 0)

/-- The per-window body of `calculate_singularity_score`, once all three
required changes are known to be present: `weighted_z` with the original
four weights when `unemployment_changes` is truthy, with the adjusted
three-metric weights otherwise, then `50 + weighted_z * 50/3` clamped by
`max(0, min(100, .))`. -/
def windowScore (lc gc ac : ℚ) (uc : Option ℚ) (truthy : Bool) : ℚ :=
  let weighted_z :=
    if truthy then
      (3/10) * laborZ lc + (1/4) * gdpZ gc + (1/5) * accountantsZ ac +
        (1/4) * unemploymentZ uc truthy
    else
      (2/5) * laborZ lc + (7/20) * gdpZ gc + (1/4) * accountantsZ ac
  max 0 (min 100 (50 + weighted_z * 50 / 3))

/-- Lookup of `unemployment_changes[period]` through the optional dict. -/
def optGet (u : Option Changes) (p : Period) : Option ℚ :=
  match u with
  | some c => c.get p
  | none => none

/-- Model of `calculate_singularity_score`: for each period, a score is produced
only when the period is a key of all of `labor_changes`, `gdp_changes`
and `accountants_changes`. -/
def calculate_singularity_score (labor gdp acc : Changes) (unemp : Option Changes)
    (p : Period) : Option ℚ :=
  match labor.get p, gdp.get p, acc.get p with
  | some lc, some gc, some ac =>
      some (windowScore lc gc ac (optGet unemp p) (dictTruthy unemp))
  | _, _, _ => none

/-- Modelled from the spec: the score the claim about fallback weights
expects for a window where the optional metric is undefined — the explicit
fallback weight set (labor 0.40, GDP 0.35, accountants 0.25) over the
remaining metrics' clipped z-scores. -/
def specFallbackScore (lc gc ac : ℚ) : ℚ :=
  max 0 (min 100 (50 +
    ((2/5) * laborZ lc + (7/20) * gdpZ gc + (1/4) * accountantsZ ac) * 50 / 3))

/-- Fixture: five quarterly observations whose 4-period-old value is 0. -/
def dfZeroBase : DataFrame :=
  ⟨[⟨2020, 3, 0⟩, ⟨2020, 6, 0⟩, ⟨2020, 9, 0⟩, ⟨2020, 12, 0⟩, ⟨2021, 3, 5⟩], []⟩

/-- Fixture: six quarterly observations `[100,100,100,100,100,90]`. -/
def dfSix : DataFrame :=
  ⟨[⟨2020, 3, 100⟩, ⟨2020, 6, 100⟩, ⟨2020, 9, 100⟩, ⟨2020, 12, 100⟩,
    ⟨2021, 3, 100⟩, ⟨2021, 6, 90⟩], []⟩

/-- Fixture: a one-row monthly frame with no derived columns. -/
def dfOneRow : DataFrame := ⟨[⟨2020, 3, 1⟩], []⟩

/-- Fixture: labor changes defined for all windows, `-5` at the 2-year one. -/
def cLaborPart : Changes := ⟨some 0, some (-5), some 0⟩

/-- Fixture: changes equal to `0` for all three windows. -/
def cAllZero : Changes := ⟨some 0, some 0, some 0⟩

/-- Fixture: a nonempty unemployment dict missing the 2-year window. -/
def cUnempPart : Changes := ⟨some 0, none, some 0⟩

/-- Fixture: labor change giving a raw z-score of exactly `+3`. -/
def cLaborMax : Changes := ⟨some (-15/2), none, none⟩

/-- Fixture: GDP change giving a raw z-score of exactly `+3`. -/
def cGdpMax : Changes := ⟨some 9, none, none⟩

/-- Fixture: accountants change giving a raw z-score of exactly `+3`. -/
def cAccMax : Changes := ⟨some (-15), none, none⟩

/-- Fixture: unemployment change giving a raw z-score of exactly `+3`. -/
def cUnempMax : Changes := ⟨some 45, none, none⟩

/-- Fixture: a change of `0` at the 1-year window only. -/
def cZeroOne : Changes := ⟨some 0, none, none⟩

theorem mem_alignSeries {rows : List Obs} {o : Obs} (h : o ∈ alignSeries rows) :
    isQuarterEnd o = true := by
  unfold alignSeries at h
  simp only [List.mem_insertionSort, List.mem_filter] at h
  exact h.2

theorem sorted_alignSeries (rows : List Obs) : List.Sorted dateLE (alignSeries rows) :=
  List.sorted_insertionSort dateLE _

theorem alignSeries_idem (rows : List Obs) :
    alignSeries (alignSeries rows) = alignSeries rows := by
  have hf : (alignSeries rows).filter isQuarterEnd = alignSeries rows :=
    List.filter_eq_self.mpr (fun a ha => mem_alignSeries ha)
  show List.insertionSort dateLE ((alignSeries rows).filter isQuarterEnd) = alignSeries rows
  rw [hf]
  exact (sorted_alignSeries rows).insertionSort_eq

theorem alignSeries_eq_self {rows : List Obs} (hs : List.Sorted dateLE rows)
    (hq : ∀ o ∈ rows, isQuarterEnd o = true) : alignSeries rows = rows := by
  unfold alignSeries
  rw [List.filter_eq_self.mpr hq]
  exact hs.insertionSort_eq

theorem mem_addCol_self (cols : List String) (c : String) : c ∈ addCol cols c := by
  unfold addCol
  split
  · assumption
  · simp

theorem mem_addCol_of_mem {cols : List String} {a : String} (h : a ∈ cols) (c : String) :
    a ∈ addCol cols c := by
  unfold addCol
  split
  · exact h
  · exact List.mem_append_left _ h

theorem addCol_of_mem {cols : List String} {c : String} (h : c ∈ cols) :
    addCol cols c = cols := by
  unfold addCol
  simp [h]

/-- C8: the aligner is idempotent — aligning the aligner's output frame again
returns an equal frame; and a chronologically sorted series whose dates all
fall on quarter-end months (3, 6, 9, 12) passes through the series-level
aligner unchanged. -/
theorem align_to_quarterly_idempotent :
    (∀ df : DataFrame,
      (align_to_quarterly (align_to_quarterly df).2).2 = (align_to_quarterly df).2) ∧
    (∀ rows : List Obs, List.Sorted dateLE rows →
      (∀ o ∈ rows, isQuarterEnd o = true) → alignSeries rows = rows) := by
  constructor
  · intro df
    have hq : "quarter" ∈ addCol (addCol df.extraCols "quarter") "year" :=
      mem_addCol_of_mem (mem_addCol_self _ _) _
    have hy : "year" ∈ addCol (addCol df.extraCols "quarter") "year" :=
      mem_addCol_self _ _
    unfold align_to_quarterly alignMutatedInput
    simp only []
    rw [DataFrame.mk.injEq]
    exact ⟨alignSeries_idem df.rows, by rw [addCol_of_mem hq, addCol_of_mem hy]⟩
  · exact fun rows hs hq => alignSeries_eq_self hs hq

theorem align_to_quarterly_idempotent_witness :
    alignSeries [⟨2020, 3, 1⟩, ⟨2020, 6, 2⟩] = [⟨2020, 3, 1⟩, ⟨2020, 6, 2⟩] :=
  align_to_quarterly_idempotent.2 _ (by decide) (by decide)

/-- C9 counterexample: `align_to_quarterly` does mutate the caller's frame —
on a one-row frame with no derived columns, the input object after the call
differs from the input before it (it gained the `quarter` and `year`
columns). -/
theorem align_mutates_input_counterexample :
    (align_to_quarterly dfOneRow).1 ≠ dfOneRow := by
  unfold align_to_quarterly alignMutatedInput dfOneRow addCol
  simp

/-- C9 (amended): `calculate_yoy_changes` leaves its input unchanged, and
`align_to_quarterly` leaves the input's rows (and their order) unchanged but
adds/overwrites the `quarter` and `year` columns on the caller's frame. -/
theorem pipeline_mutation_amended (df : DataFrame) :
    (calculate_yoy_changes df).1 = df ∧
    ((align_to_quarterly df).1).rows = df.rows ∧
    ((align_to_quarterly df).1).extraCols = addCol (addCol df.extraCols "quarter") "year" :=
  ⟨rfl, rfl, rfl⟩

/-- C4: on a chronologically sorted series, each window's percentage change
equals `(S[-1] - S[-1-P]) / S[-1-P] * 100` when `len(S) > P`, and the window
is absent (not an error, not zero) when `len(S) <= P`, for P = 4, 8, 12. -/
theorem yoy_change_windows (df : DataFrame) (hs : List.Sorted dateLE df.rows) :
    (4 < df.rows.length →
      (calculate_yoy_changes df).2.one_year =
        some ((ilocVal (df.rows.map Obs.value) (df.rows.length - 1) -
               ilocVal (df.rows.map Obs.value) (df.rows.length - 1 - 4)) /
              ilocVal (df.rows.map Obs.value) (df.rows.length - 1 - 4) * 100)) ∧
    (df.rows.length ≤ 4 → (calculate_yoy_changes df).2.one_year = none) ∧
    (8 < df.rows.length →
      (calculate_yoy_changes df).2.two_year =
        some ((ilocVal (df.rows.map Obs.value) (df.rows.length - 1) -
               ilocVal (df.rows.map Obs.value) (df.rows.length - 1 - 8)) /
              ilocVal (df.rows.map Obs.value) (df.rows.length - 1 - 8) * 100)) ∧
    (df.rows.length ≤ 8 → (calculate_yoy_changes df).2.two_year = none) ∧
    (12 < df.rows.length →
      (calculate_yoy_changes df).2.three_year =
        some ((ilocVal (df.rows.map Obs.value) (df.rows.length - 1) -
               ilocVal (df.rows.map Obs.value) (df.rows.length - 1 - 12)) /
              ilocVal (df.rows.map Obs.value) (df.rows.length - 1 - 12) * 100)) ∧
    (df.rows.length ≤ 12 → (calculate_yoy_changes df).2.three_year = none) := by
  have hv : List.insertionSort dateLE df.rows = df.rows := hs.insertionSort_eq
  refine ⟨fun h => ?_, fun h => ?_, fun h => ?_, fun h => ?_, fun h => ?_, fun h => ?_⟩ <;>
    simp only [calculate_yoy_changes, yoyChange, hv, List.length_map] <;>
    first
      | rw [if_pos h]
      | rw [if_neg (Nat.not_lt.mpr h)]

theorem yoy_change_windows_witness :
    (calculate_yoy_changes dfSix).2.one_year = some (-10) ∧
    (calculate_yoy_changes dfSix).2.three_year = none := by
  have h1 := (yoy_change_windows dfSix (by decide)).1 (by decide)
  have h2 := (yoy_change_windows dfSix (by decide)).2.2.2.2.2 (by decide)
  rw [h1, h2]
  refine ⟨?_, rfl⟩
  norm_num [dfSix, ilocVal]

/-- C1: the change calculator has no zero-denominator guard — on a series
whose 4-period-old base value is 0 it still emits a change for the 1-year
window (in Python, the unguarded float division produces Infinity), instead
of signalling a DegenerateDenominator error. -/
theorem change_unguarded_on_zero_base :
    ilocVal ((List.insertionSort dateLE dfZeroBase.rows).map Obs.value)
      (dfZeroBase.rows.length - 1 - 4) = 0 ∧
    ((calculate_yoy_changes dfZeroBase).2.one_year).isSome = true := by
  decide

theorem neg_three_le_clip3 (x : ℚ) : -3 ≤ clip3 x := le_max_left _ _

theorem clip3_le_three (x : ℚ) : clip3 x ≤ 3 := max_le (by norm_num) (min_le_left _ _)

theorem clip3_mono {x y : ℚ} (h : x ≤ y) : clip3 x ≤ clip3 y :=
  max_le_max le_rfl (min_le_min le_rfl h)

theorem clip3_zero : clip3 0 = 0 := by
  unfold clip3
  rw [min_eq_right (by norm_num : (0:ℚ) ≤ 3), max_eq_right (by norm_num : (-3:ℚ) ≤ 0)]

theorem unemploymentZ_none (t : Bool) : unemploymentZ none t = 0 := by
  cases t <;> exact clip3_zero

theorem dictTruthy_of_get_some {c : Changes} {p : Period} {u : ℚ} (h : c.get p = some u) :
    dictTruthy (some c) = true := by
  cases p <;> simp only [Changes.get] at h <;> simp [dictTruthy, h]

theorem eq_none_of_isSome_eq_false {o : Option ℚ} (h : o.isSome = false) : o = none := by
  cases o
  · rfl
  · simp at h

theorem optGet_eq_none_of_falsy {u : Option Changes} {p : Period}
    (h : dictTruthy u = false) : optGet u p = none := by
  cases u with
  | none => rfl
  | some c =>
    simp only [dictTruthy, Bool.or_eq_false_iff] at h
    obtain ⟨⟨h1, h2⟩, h3⟩ := h
    cases p <;>
      simp [optGet, Changes.get, eq_none_of_isSome_eq_false h1,
        eq_none_of_isSome_eq_false h2, eq_none_of_isSome_eq_false h3]

theorem windowScore_nonneg (lc gc ac : ℚ) (uc : Option ℚ) (t : Bool) :
    0 ≤ windowScore lc gc ac uc t := by
  unfold windowScore
  exact le_max_left _ _

theorem windowScore_le_100 (lc gc ac : ℚ) (uc : Option ℚ) (t : Bool) :
    windowScore lc gc ac uc t ≤ 100 := by
  unfold windowScore
  exact max_le (by norm_num) (min_le_left _ _)

theorem clampScore_mono {x y : ℚ} (h : x ≤ y) :
    max 0 (min 100 (50 + x * 50 / 3)) ≤ max 0 (min 100 (50 + y * 50 / 3)) :=
  max_le_max le_rfl (min_le_min le_rfl
    (add_le_add_left ((div_le_div_iff_of_pos_right (by norm_num)).mpr
      (mul_le_mul_of_nonneg_right h (by norm_num))) 50))

theorem laborZ_mono {a b : ℚ} (h : -a ≤ -b) : laborZ a ≤ laborZ b :=
  clip3_mono ((div_le_div_iff_of_pos_right (by norm_num [std_dev_labor])).mpr h)

theorem gdpZ_mono {a b : ℚ} (h : a ≤ b) : gdpZ a ≤ gdpZ b :=
  clip3_mono ((div_le_div_iff_of_pos_right (by norm_num [std_dev_gdp])).mpr h)

theorem accountantsZ_mono {a b : ℚ} (h : -a ≤ -b) : accountantsZ a ≤ accountantsZ b :=
  clip3_mono ((div_le_div_iff_of_pos_right (by norm_num [std_dev_accountants])).mpr h)

theorem unemploymentZ_mono {a b : ℚ} {t : Bool} (h : a ≤ b) :
    unemploymentZ (some a) t ≤ unemploymentZ (some b) t := by
  cases t
  · exact le_rfl
  · exact clip3_mono ((div_le_div_iff_of_pos_right (by norm_num [std_dev_unemployment])).mpr h)

theorem windowScore_mono {lc lc2 gc gc2 ac ac2 : ℚ} {uc uc2 : Option ℚ} {t : Bool}
    (hl : laborZ lc ≤ laborZ lc2) (hg : gdpZ gc ≤ gdpZ gc2)
    (ha : accountantsZ ac ≤ accountantsZ ac2)
    (hu : unemploymentZ uc t ≤ unemploymentZ uc2 t) :
    windowScore lc gc ac uc t ≤ windowScore lc2 gc2 ac2 uc2 t := by
  simp only [windowScore]
  cases t <;> simp only [Bool.false_eq_true, if_false, if_true]
  · exact clampScore_mono (by
      have h1 := mul_le_mul_of_nonneg_left hl (by norm_num : (0:ℚ) ≤ 2/5)
      have h2 := mul_le_mul_of_nonneg_left hg (by norm_num : (0:ℚ) ≤ 7/20)
      have h3 := mul_le_mul_of_nonneg_left ha (by norm_num : (0:ℚ) ≤ 1/4)
      linarith)
  · exact clampScore_mono (by
      have h1 := mul_le_mul_of_nonneg_left hl (by norm_num : (0:ℚ) ≤ 3/10)
      have h2 := mul_le_mul_of_nonneg_left hg (by norm_num : (0:ℚ) ≤ 1/4)
      have h3 := mul_le_mul_of_nonneg_left ha (by norm_num : (0:ℚ) ≤ 1/5)
      have h4 := mul_le_mul_of_nonneg_left hu (by norm_num : (0:ℚ) ≤ 1/4)
      linarith)

theorem clip3_of_le {x : ℚ} (h1 : -3 ≤ x) (h2 : x ≤ 3) : clip3 x = x := by
  unfold clip3
  rw [min_eq_right h2, max_eq_right h1]

theorem clip3_of_ge {x : ℚ} (h : 3 ≤ x) : clip3 x = 3 := by
  unfold clip3
  rw [min_eq_left h, max_eq_right (by norm_num)]

theorem laborZ_zero : laborZ 0 = 0 := by
  rw [laborZ, neg_zero, zero_div, clip3_zero]

theorem gdpZ_zero : gdpZ 0 = 0 := by
  rw [gdpZ, zero_div, clip3_zero]

theorem accountantsZ_zero : accountantsZ 0 = 0 := by
  rw [accountantsZ, neg_zero, zero_div, clip3_zero]

theorem unemploymentZ_some_zero : unemploymentZ (some 0) true = 0 := by
  show clip3 (0 / std_dev_unemployment) = 0
  rw [zero_div, clip3_zero]

theorem laborZ_max : laborZ (-15/2) = 3 := by
  have h : (-(-15/2:ℚ)) / std_dev_labor = 3 := by norm_num [std_dev_labor]
  rw [laborZ, h]
  exact clip3_of_ge le_rfl

theorem gdpZ_max : gdpZ 9 = 3 := by
  have h : (9:ℚ) / std_dev_gdp = 3 := by norm_num [std_dev_gdp]
  rw [gdpZ, h]
  exact clip3_of_ge le_rfl

theorem accountantsZ_max : accountantsZ (-15) = 3 := by
  have h : (-(-15:ℚ)) / std_dev_accountants = 3 := by norm_num [std_dev_accountants]
  rw [accountantsZ, h]
  exact clip3_of_ge le_rfl

theorem unemploymentZ_max : unemploymentZ (some 45) true = 3 := by
  show clip3 ((45:ℚ) / std_dev_unemployment) = 3
  have h : (45:ℚ) / std_dev_unemployment = 3 := by norm_num [std_dev_unemployment]
  rw [h]
  exact clip3_of_ge le_rfl

theorem laborZ_neg5 : laborZ (-5) = 2 := by
  have h : (-(-5:ℚ)) / std_dev_labor = 2 := by norm_num [std_dev_labor]
  rw [laborZ, h]
  exact clip3_of_le (by norm_num) (by norm_num)

theorem windowScore_eval {lc gc ac : ℚ} {uc : Option ℚ} {t : Bool} {w : ℚ}
    (hw : (if t then
        (3/10) * laborZ lc + (1/4) * gdpZ gc + (1/5) * accountantsZ ac +
          (1/4) * unemploymentZ uc t
      else
        (2/5) * laborZ lc + (7/20) * gdpZ gc + (1/4) * accountantsZ ac) = w)
    (h0 : 0 ≤ 50 + w * 50 / 3) (h100 : 50 + w * 50 / 3 ≤ 100) :
    windowScore lc gc ac uc t = 50 + w * 50 / 3 := by
  simp only [windowScore, hw]
  rw [min_eq_right h100, max_eq_right h0]

theorem windowScore_true (lc gc ac : ℚ) (uc : Option ℚ) :
    windowScore lc gc ac uc true =
      max 0 (min 100 (50 + ((3/10) * laborZ lc + (1/4) * gdpZ gc +
        (1/5) * accountantsZ ac + (1/4) * unemploymentZ uc true) * 50 / 3)) := rfl

theorem windowScore_false (lc gc ac : ℚ) (uc : Option ℚ) :
    windowScore lc gc ac uc false =
      max 0 (min 100 (50 + ((2/5) * laborZ lc + (7/20) * gdpZ gc +
        (1/4) * accountantsZ ac) * 50 / 3)) := rfl

/-- C6: a window's score appears in the aggregator's output exactly when all
three required metrics (labor share, GDP per capita, accountants) have a
defined change for that window; otherwise the window is absent, never
defaulted. -/
theorem score_emitted_iff_required_defined (labor gdp acc : Changes)
    (unemp : Option Changes) (p : Period) :
    (calculate_singularity_score labor gdp acc unemp p).isSome =
      ((labor.get p).isSome && (gdp.get p).isSome && (acc.get p).isSome) := by
  unfold calculate_singularity_score
  cases hL : labor.get p <;> cases hG : gdp.get p <;> cases hA : acc.get p <;> rfl

/-- C7: every composite score the aggregator emits lies in the closed
interval [0, 100], for any input changes. -/
theorem score_in_unit_range (labor gdp acc : Changes) (unemp : Option Changes)
    (p : Period) (s : ℚ)
    (h : calculate_singularity_score labor gdp acc unemp p = some s) :
    0 ≤ s ∧ s ≤ 100 := by
  unfold calculate_singularity_score at h
  cases hL : labor.get p <;> cases hG : gdp.get p <;> cases hA : acc.get p <;>
    rw [hL, hG, hA] at h <;> simp only [Option.some.injEq, reduceCtorEq] at h
  rw [← h]
  exact ⟨windowScore_nonneg _ _ _ _ _, windowScore_le_100 _ _ _ _ _⟩

theorem score_in_unit_range_witness : (0 : ℚ) ≤ 50 ∧ (50 : ℚ) ≤ 100 :=
  score_in_unit_range cAllZero cAllZero cAllZero (some cAllZero) Period.p1 50
    (by
      show some (windowScore 0 0 0 (some 0) true) = some 50
      rw [windowScore_eval (w := 0) (by
        rw [if_pos rfl, laborZ_zero, gdpZ_zero, accountantsZ_zero,
          unemploymentZ_some_zero]
        norm_num) (by norm_num) (by norm_num)]
      norm_num)

/-- C3: every emitted score equals `clamp(50 + weighted_z * 50/3, 0, 100)`
where `weighted_z` is the weighted sum of the clipped z-scores under the
weight table in force; with all four metrics present and every z-score at
its clip extreme +3 the score is 100, and with the optional metric absent
and the three required z-scores all 0 the score is 50. -/
theorem score_clamped_formula :
    (∀ (labor gdp acc : Changes) (unemp : Option Changes) (p : Period) (lc gc ac : ℚ),
      labor.get p = some lc → gdp.get p = some gc → acc.get p = some ac →
      calculate_singularity_score labor gdp acc unemp p =
        some (max 0 (min 100 (50 +
          (if dictTruthy unemp then
            (3/10) * laborZ lc + (1/4) * gdpZ gc + (1/5) * accountantsZ ac +
              (1/4) * unemploymentZ (optGet unemp p) (dictTruthy unemp)
          else
            (2/5) * laborZ lc + (7/20) * gdpZ gc + (1/4) * accountantsZ ac) * 50 / 3)))) ∧
    calculate_singularity_score cLaborMax cGdpMax cAccMax (some cUnempMax) Period.p1 =
      some 100 ∧
    calculate_singularity_score cZeroOne cZeroOne cZeroOne none Period.p1 = some 50 := by
  refine ⟨fun labor gdp acc unemp p lc gc ac hL hG hA => ?_, ?_, ?_⟩
  · unfold calculate_singularity_score
    rw [hL, hG, hA]
    rfl
  · show some (windowScore (-15/2) 9 (-15) (some 45) true) = some 100
    rw [windowScore_eval (w := 3) (by
      rw [if_pos rfl, laborZ_max, gdpZ_max, accountantsZ_max, unemploymentZ_max]
      norm_num) (by norm_num) (by norm_num)]
    norm_num
  · show some (windowScore 0 0 0 none false) = some 50
    rw [windowScore_eval (w := 0) (by
      rw [if_neg Bool.false_ne_true, laborZ_zero, gdpZ_zero, accountantsZ_zero]
      norm_num) (by norm_num) (by norm_num)]
    norm_num

theorem score_clamped_formula_witness :
    calculate_singularity_score cAllZero cAllZero cAllZero none Period.p2 =
      some (max 0 (min 100 (50 +
        (if dictTruthy (none : Option Changes) then
          (3/10) * laborZ 0 + (1/4) * gdpZ 0 + (1/5) * accountantsZ 0 +
            (1/4) * unemploymentZ (optGet none Period.p2) (dictTruthy none)
        else
          (2/5) * laborZ 0 + (7/20) * gdpZ 0 + (1/4) * accountantsZ 0) * 50 / 3))) :=
  score_clamped_formula.1 cAllZero cAllZero cAllZero none Period.p2 0 0 0 rfl rfl rfl

/-- C5: each metric's z-score used in aggregation is
`sign * change / std_dev` clipped to [-3, 3], with sign -1 for labor share
and accountants and +1 for GDP per capita and graduate unemployment; every
clipped z-score lies in [-3, 3]; and for a change of -10 with sign -1 and
std_dev 2.5 the raw z is 4 and the clipped z is 3. -/
theorem zscore_sign_and_clip :
    (∀ c : ℚ, laborZ c = clip3 ((-1) * c / std_dev_labor)) ∧
    (∀ c : ℚ, gdpZ c = clip3 (1 * c / std_dev_gdp)) ∧
    (∀ c : ℚ, accountantsZ c = clip3 ((-1) * c / std_dev_accountants)) ∧
    (∀ u : ℚ, unemploymentZ (some u) true = clip3 (1 * u / std_dev_unemployment)) ∧
    (∀ x : ℚ, -3 ≤ clip3 x ∧ clip3 x ≤ 3) ∧
    (-1 : ℚ) * (-10) / std_dev_labor = 4 ∧ laborZ (-10) = 3 := by
  refine ⟨fun c => by rw [laborZ, neg_one_mul],
    fun c => by rw [gdpZ, one_mul],
    fun c => by rw [accountantsZ, neg_one_mul],
    fun u => by
      show clip3 (u / std_dev_unemployment) = clip3 (1 * u / std_dev_unemployment)
      rw [one_mul],
    fun x => ⟨neg_three_le_clip3 x, clip3_le_three x⟩,
    by norm_num [std_dev_labor],
    ?_⟩
  have h : (-(-10:ℚ)) / std_dev_labor = 4 := by norm_num [std_dev_labor]
  rw [laborZ, h]
  exact clip3_of_ge (by norm_num)

/-- C2 counterexample: with the optional metric's dict nonempty but lacking
the 2-year key while all required metrics are defined there, the code scores
the 2-year window with the original four-metric weights (the missing metric
contributing 0), giving 60, not the fallback-weight value 190/3. -/
theorem fallback_weights_counterexample :
    calculate_singularity_score cLaborPart cAllZero cAllZero (some cUnempPart)
      Period.p2 = some 60 ∧
    specFallbackScore (-5) 0 0 = 190/3 ∧
    ((60 : ℚ) ≠ 190/3) := by
  refine ⟨?_, ?_, by norm_num⟩
  · show some (windowScore (-5) 0 0 none true) = some 60
    rw [windowScore_eval (w := 3/5) (by
      rw [if_pos rfl, laborZ_neg5, gdpZ_zero, accountantsZ_zero, unemploymentZ_none]
      norm_num) (by norm_num) (by norm_num)]
    norm_num
  · unfold specFallbackScore
    rw [laborZ_neg5, gdpZ_zero, accountantsZ_zero]
    have hsum : (50:ℚ) + ((2/5) * 2 + (7/20) * 0 + (1/4) * 0) * 50 / 3 = 190/3 := by
      norm_num
    rw [hsum, min_eq_right (by norm_num), max_eq_right (by norm_num)]

/-- C2 (amended): the fallback weight set (0.40/0.35/0.25) is applied
exactly when the optional metric's whole change dict is absent (None) or
empty; when the dict is nonempty but lacks the window's key, the original
four-metric weights are used with the optional metric contributing a
z-score of 0. -/
theorem fallback_weights_amended :
    (∀ (labor gdp acc c : Changes) (p : Period) (lc gc ac : ℚ),
      labor.get p = some lc → gdp.get p = some gc → acc.get p = some ac →
      dictTruthy (some c) = true → c.get p = none →
      calculate_singularity_score labor gdp acc (some c) p =
        some (max 0 (min 100 (50 +
          ((3/10) * laborZ lc + (1/4) * gdpZ gc + (1/5) * accountantsZ ac +
            (1/4) * 0) * 50 / 3)))) ∧
    (∀ (labor gdp acc : Changes) (u : Option Changes) (p : Period) (lc gc ac : ℚ),
      labor.get p = some lc → gdp.get p = some gc → acc.get p = some ac →
      dictTruthy u = false →
      calculate_singularity_score labor gdp acc u p =
        some (specFallbackScore lc gc ac)) := by
  constructor
  · intro labor gdp acc c p lc gc ac hL hG hA ht hc
    have key : calculate_singularity_score labor gdp acc (some c) p =
        some (windowScore lc gc ac (c.get p) (dictTruthy (some c))) := by
      unfold calculate_singularity_score
      rw [hL, hG, hA]
      rfl
    rw [key, hc, ht, windowScore_true, unemploymentZ_none]
  · intro labor gdp acc u p lc gc ac hL hG hA ht
    have key : calculate_singularity_score labor gdp acc u p =
        some (windowScore lc gc ac (optGet u p) (dictTruthy u)) := by
      unfold calculate_singularity_score
      rw [hL, hG, hA]
    rw [key, optGet_eq_none_of_falsy ht, ht, windowScore_false]
    rfl

theorem fallback_weights_amended_witness :
    calculate_singularity_score cLaborPart cAllZero cAllZero (some cUnempPart)
      Period.p2 =
      some (max 0 (min 100 (50 +
        ((3/10) * laborZ (-5) + (1/4) * gdpZ 0 + (1/5) * accountantsZ 0 +
          (1/4) * 0) * 50 / 3))) ∧
    calculate_singularity_score cAllZero cAllZero cAllZero none Period.p1 =
      some (specFallbackScore 0 0 0) :=
  ⟨fallback_weights_amended.1 cLaborPart cAllZero cAllZero cUnempPart Period.p2
      (-5) 0 0 rfl rfl rfl rfl rfl,
   fallback_weights_amended.2 cAllZero cAllZero cAllZero none Period.p1 0 0 0
      rfl rfl rfl rfl⟩

/-- C10: the emitted score is monotone nondecreasing in each metric's
sign-adjusted change: with everything else fixed (same windows defined),
increasing `-labor_change`, `gdp_change`, `-accountants_change` or
`unemployment_change` never decreases the emitted score. -/
theorem score_monotone_in_adjusted_change :
    (∀ (labor labor2 gdp acc : Changes) (unemp : Option Changes) (p : Period)
        (lc lc2 s s2 : ℚ),
      labor.get p = some lc → labor2.get p = some lc2 → -lc ≤ -lc2 →
      calculate_singularity_score labor gdp acc unemp p = some s →
      calculate_singularity_score labor2 gdp acc unemp p = some s2 → s ≤ s2) ∧
    (∀ (labor gdp gdp2 acc : Changes) (unemp : Option Changes) (p : Period)
        (gc gc2 s s2 : ℚ),
      gdp.get p = some gc → gdp2.get p = some gc2 → gc ≤ gc2 →
      calculate_singularity_score labor gdp acc unemp p = some s →
      calculate_singularity_score labor gdp2 acc unemp p = some s2 → s ≤ s2) ∧
    (∀ (labor gdp acc acc2 : Changes) (unemp : Option Changes) (p : Period)
        (ac ac2 s s2 : ℚ),
      acc.get p = some ac → acc2.get p = some ac2 → -ac ≤ -ac2 →
      calculate_singularity_score labor gdp acc unemp p = some s →
      calculate_singularity_score labor gdp acc2 unemp p = some s2 → s ≤ s2) ∧
    (∀ (labor gdp acc cu cu2 : Changes) (p : Period) (u u2 s s2 : ℚ),
      cu.get p = some u → cu2.get p = some u2 → u ≤ u2 →
      calculate_singularity_score labor gdp acc (some cu) p = some s →
      calculate_singularity_score labor gdp acc (some cu2) p = some s2 → s ≤ s2) := by
  refine ⟨?_, ?_, ?_, ?_⟩
  · intro labor labor2 gdp acc unemp p lc lc2 s s2 hL hL2 hle hs hs2
    unfold calculate_singularity_score at hs hs2
    cases hG : gdp.get p <;> cases hA : acc.get p <;>
      rw [hL, hG, hA] at hs <;> rw [hL2, hG, hA] at hs2 <;>
      simp only [Option.some.injEq, reduceCtorEq] at hs hs2
    rw [← hs, ← hs2]
    exact windowScore_mono (laborZ_mono hle) le_rfl le_rfl le_rfl
  · intro labor gdp gdp2 acc unemp p gc gc2 s s2 hG hG2 hle hs hs2
    unfold calculate_singularity_score at hs hs2
    cases hL : labor.get p <;> cases hA : acc.get p <;>
      rw [hL, hG, hA] at hs <;> rw [hL, hG2, hA] at hs2 <;>
      simp only [Option.some.injEq, reduceCtorEq] at hs hs2
    rw [← hs, ← hs2]
    exact windowScore_mono le_rfl (gdpZ_mono hle) le_rfl le_rfl
  · intro labor gdp acc acc2 unemp p ac ac2 s s2 hA hA2 hle hs hs2
    unfold calculate_singularity_score at hs hs2
    cases hL : labor.get p <;> cases hG : gdp.get p <;>
      rw [hL, hG, hA] at hs <;> rw [hL, hG, hA2] at hs2 <;>
      simp only [Option.some.injEq, reduceCtorEq] at hs hs2
    rw [← hs, ← hs2]
    exact windowScore_mono le_rfl le_rfl (accountantsZ_mono hle) le_rfl
  · intro labor gdp acc cu cu2 p u u2 s s2 hU hU2 hle hs hs2
    unfold calculate_singularity_score at hs hs2
    rw [show optGet (some cu) p = some u from hU, dictTruthy_of_get_some hU] at hs
    rw [show optGet (some cu2) p = some u2 from hU2, dictTruthy_of_get_some hU2] at hs2
    cases hL : labor.get p <;> cases hG : gdp.get p <;> cases hA : acc.get p <;>
      rw [hL, hG, hA] at hs hs2 <;>
      simp only [Option.some.injEq, reduceCtorEq] at hs hs2
    rw [← hs, ← hs2]
    exact windowScore_mono le_rfl le_rfl le_rfl (unemploymentZ_mono hle)

theorem score_monotone_witness : (50 : ℚ) ≤ 70 :=
  score_monotone_in_adjusted_change.1 cZeroOne cLaborMax cZeroOne cZeroOne none
    Period.p1 0 (-15/2) 50 70 rfl rfl (by norm_num)
    (by
      show some (windowScore 0 0 0 none false) = some 50
      rw [windowScore_eval (w := 0) (by
        rw [if_neg Bool.false_ne_true, laborZ_zero, gdpZ_zero, accountantsZ_zero]
        norm_num) (by norm_num) (by norm_num)]
      norm_num)
    (by
      show some (windowScore (-15/2) 0 0 none false) = some 70
      rw [windowScore_eval (w := 6/5) (by
        rw [if_neg Bool.false_ne_true, laborZ_max, gdpZ_zero, accountantsZ_zero]
        norm_num) (by norm_num) (by norm_num)]
      norm_num)

end AITracker
